import Mathlib

/-!
# Night Watch capture orchestrator: verification of the PNG writer,
# recorder, SSTV scanner and capture paths

Shallow embedding of the capture subsystem of the night-watch ground
station controller.  Every definition is translated from the TypeScript
source (`src/backend/capture/...`); machine integers are `Nat`, dB power
levels are `Rat` (the source compares IEEE doubles, and every comparison
it performs is an order comparison, which `Rat` models exactly), byte
buffers are `List Nat` with every entry below 256, and fallible calls are
`Except` values supplied by an environment record.  External processes and
libraries (zlib, rtl_fm, sox, the FFT producer, the SQLite store) are
modelled as abstract inputs: the byte stream a compressor returns, the
outcome a recording attempt has, and so on.
-/

/-! ## PNG writer (`decoders/sstv-toolkit/writePng.ts`)

The writer emits an RGB (colour type 2) PNG from an RGBA pixel buffer.
Bytes are `Nat` values below 256.  zlib's `deflateSync(raw, { level: 6 })`
is an external library call; it is modelled as an abstract function
argument `deflate6 : List Nat → List Nat` mapping the raw scanline stream
to the compressed IDAT payload. -/

/-- The 8-byte PNG signature, `Buffer.from([137, 80, 78, 71, 13, 10, 26, 10])`. -/
def pngSignature : List Nat := [137, 80, 78, 71, 13, 10, 26, 10]

/-- One round of the CRC-32 shift: `c = c & 1 ? 0xedb88320 ^ (c >>> 1) : c >>> 1`. -/
def crcStep (c : Nat) : Nat :=
  if c % 2 = 1 then 0xedb88320 ^^^ (c >>> 1) else c >>> 1

/-- Eight rounds of `crcStep`: the inner `for (let j = 0; j < 8; j++)` loop of
`crc32Table`. -/
def crcStep8 (c : Nat) : Nat := crcStep^[8] c

/-- `crc32Table()[i]`: entry `i` of the lazily built table (the source seeds the
entry with `i` and applies the shift eight times). -/
def crcTable (i : Nat) : Nat := crcStep8 i

/-- The accumulator loop of `crc32`:
`crc = table[(crc ^ buf[i]) & 0xff] ^ (crc >>> 8)`. -/
def crc32Aux : List Nat → Nat → Nat
  | [], c => c
  | b :: bs, c => crc32Aux bs (crcTable ((c ^^^ b) &&& 0xff) ^^^ (c >>> 8))

/-- `crc32(buf)` from `writePng.ts`: table-driven CRC-32, seeded with
`0xffffffff` and finalised by `^ 0xffffffff`. -/
def crc32 (buf : List Nat) : Nat := crc32Aux buf 0xffffffff ^^^ 0xffffffff

/-- The spec's wording of the checksum ("a CRC-32 computed over `type+data`
using polynomial 0xEDB88320"): the reference bit-at-a-time CRC-32, which xors
each byte into the register and runs the polynomial shift eight times. -/
def crc32SpecAux : List Nat → Nat → Nat
  | [], c => c
  | b :: bs, c => crc32SpecAux bs (crcStep8 (c ^^^ b))

/-- Reference CRC-32 (spec wording), seeded and finalised with `0xffffffff`. -/
def crc32Spec (buf : List Nat) : Nat := crc32SpecAux buf 0xffffffff ^^^ 0xffffffff

/-- Big-endian 4-byte encoding, as `Buffer.writeUInt32BE` lays the value out
(the caller guarantees the value fits 32 bits). -/
def be32 (n : Nat) : List Nat :=
  [n >>> 24 &&& 0xff, n >>> 16 &&& 0xff, n >>> 8 &&& 0xff, n &&& 0xff]

/-- ASCII bytes of the chunk type `"IHDR"`. -/
def ihdrType : List Nat := [73, 72, 68, 82]

/-- ASCII bytes of the chunk type `"IDAT"`. -/
def idatType : List Nat := [73, 68, 65, 84]

/-- ASCII bytes of the chunk type `"IEND"`. -/
def iendType : List Nat := [73, 69, 78, 68]

/-- `chunk(type, data)` from `writePng.ts`: 4-byte big-endian length, type
bytes, data, then the table-driven CRC-32 of `type ++ data`. -/
def chunkBytes (ty data : List Nat) : List Nat :=
  be32 data.length ++ ty ++ data ++ be32 (crc32 (ty ++ data))

/-- The spec's wording of a chunk: length, type, data, and "a CRC-32 computed
over `type+data` using polynomial 0xEDB88320" (reference CRC). -/
def chunkSpec (ty data : List Nat) : List Nat :=
  be32 data.length ++ ty ++ data ++ be32 (crc32Spec (ty ++ data))

/-- The 13 IHDR data bytes: width, height (both big-endian 32-bit), bit depth
8, colour type 2, compression 0, filter 0, interlace 0. -/
def ihdrData (width height : Nat) : List Nat :=
  be32 width ++ be32 height ++ [8, 2, 0, 0, 0]

/-- The scanline loop of `writePng`: for each row a `0` filter byte followed by
the red, green and blue components of each pixel (`pixels[src] ?? 0` with
`src = (y * width + x) * 4`; the alpha byte at `src + 3` is skipped). -/
def rawScanlines (pixels : List Nat) (width height : Nat) : List Nat :=
  (List.range height).flatMap fun y =>
    0 :: (List.range width).flatMap fun x =>
      [pixels.getD ((y * width + x) * 4) 0,
       pixels.getD ((y * width + x) * 4 + 1) 0,
       pixels.getD ((y * width + x) * 4 + 2) 0]

/-- `writePng` from `writePng.ts`, as the byte stream handed to `writeFile`:
signature, IHDR chunk, one IDAT chunk holding the deflated scanlines, IEND. -/
def writePng (deflate6 : List Nat → List Nat) (pixels : List Nat)
    (width height : Nat) : List Nat :=
  pngSignature ++
    chunkBytes ihdrType (ihdrData width height) ++
    chunkBytes idatType (deflate6 (rawScanlines pixels width height)) ++
    chunkBytes iendType []

/-- The PNG layout exactly as §4.7 step 8 of the specification words it:
8-byte signature, IHDR (width, height, bit depth 8, colour type 2, 0/0/0),
IDAT (filter byte 0 per row + RGB rows, deflated), IEND, each chunk carrying
the polynomial-0xEDB88320 reference CRC over `type+data`. -/
def writePngSpec (deflate6 : List Nat → List Nat) (pixels : List Nat)
    (width height : Nat) : List Nat :=
  pngSignature ++
    chunkSpec ihdrType (be32 width ++ be32 height ++ [8, 2, 0, 0, 0]) ++
    chunkSpec idatType
      (deflate6 ((List.range height).flatMap fun y =>
        0 :: (List.range width).flatMap fun x =>
          [pixels.getD ((y * width + x) * 4) 0,
           pixels.getD ((y * width + x) * 4 + 1) 0,
           pixels.getD ((y * width + x) * 4 + 2) 0])) ++
    chunkSpec iendType []

/-! ### The table-driven CRC agrees with the reference CRC

The heart of the PNG claim: looking up `table[(crc ^ byte) & 0xff]` and
xoring in `crc >>> 8` computes exactly eight rounds of the polynomial
shift applied to `crc ^ byte`. -/

theorem xor_shiftRight_distrib (x y n : Nat) :
    (x ^^^ y) >>> n = (x >>> n) ^^^ (y >>> n) := by
  apply Nat.eq_of_testBit_eq
  intro i
  simp [Nat.testBit_shiftRight, Nat.testBit_xor]

theorem shiftRight_eight_xor_byte (c b : Nat) (hb : b < 256) :
    (c ^^^ b) >>> 8 = c >>> 8 := by
  rw [xor_shiftRight_distrib]
  have hz : b >>> 8 = 0 := by
    rw [Nat.shiftRight_eq_div_pow]
    omega
  rw [hz, Nat.xor_zero]

theorem split_low_high (d : Nat) :
    d = (d &&& 255) ^^^ ((d >>> 8) <<< 8) := by
  apply Nat.eq_of_testBit_eq
  intro i
  have h255 : (255 : Nat) = 2 ^ 8 - 1 := by norm_num
  rw [Nat.testBit_xor, Nat.testBit_and, Nat.testBit_shiftLeft,
    Nat.testBit_shiftRight, h255, Nat.testBit_two_pow_sub_one]
  by_cases hi : i < 8
  · have hge : decide (i ≥ 8) = false := by simp; omega
    simp [hi, hge]
  · have heq : 8 + (i - 8) = i := by omega
    have hge : decide (i ≥ 8) = true := by simp; omega
    simp [hi, hge, heq]

theorem crcStep_xor_shiftLeft_one (a k : Nat) :
    crcStep (a ^^^ (k <<< 1)) = crcStep a ^^^ k := by
  have hshift : (k <<< 1) >>> 1 = k := by
    rw [Nat.shiftLeft_eq, Nat.shiftRight_eq_div_pow]
    simp
  have hpar : (a ^^^ (k <<< 1)) % 2 = a % 2 := by
    rw [← Nat.and_one_is_mod, ← Nat.and_one_is_mod, Nat.and_xor_distrib_right]
    have : (k <<< 1) &&& 1 = 0 := by
      rw [Nat.shiftLeft_eq, Nat.and_one_is_mod]
      omega
    rw [this, Nat.xor_zero]
  rw [crcStep, crcStep, hpar, xor_shiftRight_distrib, hshift]
  by_cases ha : a % 2 = 1
  · rw [if_pos ha, if_pos ha, Nat.xor_assoc]
  · rw [if_neg ha, if_neg ha]

theorem crcStep_iterate_xor_shiftLeft (n : Nat) :
    ∀ a k : Nat, crcStep^[n] (a ^^^ (k <<< n)) = crcStep^[n] a ^^^ k := by
  induction n with
  | zero => intro a k; simp [Nat.shiftLeft_zero]
  | succ m ih =>
      intro a k
      have hsplit : k <<< (m + 1) = (k <<< 1) <<< m := by
        rw [Nat.add_comm, Nat.shiftLeft_add]
      rw [hsplit, Function.iterate_succ_apply', Function.iterate_succ_apply',
        ih, crcStep_xor_shiftLeft_one]

theorem crcStep8_low_high (d : Nat) :
    crcStep8 d = crcStep8 (d &&& 255) ^^^ (d >>> 8) := by
  rw [crcStep8, crcStep8]
  conv_lhs => rw [split_low_high d]
  exact crcStep_iterate_xor_shiftLeft 8 (d &&& 255) (d >>> 8)

theorem crcTable_lookup (c b : Nat) (hb : b < 256) :
    crcTable ((c ^^^ b) &&& 0xff) ^^^ (c >>> 8) = crcStep8 (c ^^^ b) := by
  rw [crcTable, ← shiftRight_eight_xor_byte c b hb, ← crcStep8_low_high]

theorem crc32Aux_eq_specAux :
    ∀ (l : List Nat) (c : Nat), (∀ b ∈ l, b < 256) →
      crc32Aux l c = crc32SpecAux l c := by
  intro l
  induction l with
  | nil => intro c _; rfl
  | cons b bs ih =>
      intro c hl
      rw [crc32Aux, crc32SpecAux, crcTable_lookup c b (hl b (by simp)),
        ih _ fun x hx => hl x (by simp [hx])]

/-- The table-driven CRC-32 of `writePng.ts` computes the reference
polynomial-0xEDB88320 CRC-32 on every byte stream. -/
theorem crc32_eq_crc32Spec (l : List Nat) (hl : ∀ b ∈ l, b < 256) :
    crc32 l = crc32Spec l := by
  rw [crc32, crc32Spec, crc32Aux_eq_specAux l _ hl]

theorem be32_bytes_lt (n : Nat) : ∀ b ∈ be32 n, b < 256 := by
  intro b hb
  simp only [be32, List.mem_cons, List.not_mem_nil, or_false] at hb
  rcases hb with h | h | h | h <;> subst h <;>
    exact Nat.lt_succ_of_le Nat.and_le_right

theorem append_bytes_lt {l1 l2 : List Nat} (h1 : ∀ b ∈ l1, b < 256)
    (h2 : ∀ b ∈ l2, b < 256) : ∀ b ∈ l1 ++ l2, b < 256 := by
  intro b hb
  rcases List.mem_append.mp hb with h | h
  · exact h1 b h
  · exact h2 b h

theorem getD_lt (l : List Nat) (hp : ∀ b ∈ l, b < 256) (i : Nat) :
    l.getD i 0 < 256 := by
  by_cases hi : i < l.length
  · rw [List.getD_eq_getElem l 0 hi]
    exact hp _ (List.getElem_mem hi)
  · rw [List.getD_eq_default _ _ (by omega)]
    omega

theorem rawScanlines_bytes_lt (pixels : List Nat) (w h : Nat)
    (hp : ∀ b ∈ pixels, b < 256) : ∀ b ∈ rawScanlines pixels w h, b < 256 := by
  intro b hb
  rw [rawScanlines] at hb
  rcases List.mem_flatMap.mp hb with ⟨y, _, hy⟩
  rcases List.mem_cons.mp hy with h0 | hrow
  · omega
  · rcases List.mem_flatMap.mp hrow with ⟨x, _, hx⟩
    simp only [List.mem_cons, List.not_mem_nil, or_false] at hx
    rcases hx with h | h | h <;> subst h <;> exact getD_lt pixels hp _

theorem chunkBytes_eq_chunkSpec (ty data : List Nat)
    (h : ∀ b ∈ ty ++ data, b < 256) : chunkBytes ty data = chunkSpec ty data := by
  rw [chunkBytes, chunkSpec, crc32_eq_crc32Spec _ h]

/-! ## Recorder (`capture/recorder.ts`)

`startRecording` chooses between two pipelines: `rtl_sdr | sox` for raw
baseband IQ (LRPT) and `rtl_fm | sox` for FM-demodulated signals (SSTV and
narrowband FM).  The embedding computes the exact `spawn` command lines.
Numbers are kept as `Nat`/`Int` and rendered with `toString`, as the source
renders them with `.toString()` (all values involved are integers in the
source configuration). -/

/-- Signal parameters (`SignalConfig` in `@backend/types`): the fields the
recorder and the capture paths read. -/
structure SignalConfig where
  type : String
  bandwidth : Nat
  sampleRate : Nat
  demodulation : String
deriving DecidableEq

/-- `SatelliteInfo` from `@backend/types`, restricted to the fields the
recorder reads (`name`, `frequency`, `signalType`, `signalConfig`). -/
structure SatelliteInfo where
  name : String
  noradId : Nat
  frequency : Nat
  signalType : String
  signalConfig : Option SignalConfig
  enabled : Bool
deriving DecidableEq

/-- The `sdr` section of `ReceiverConfig`. -/
structure SdrConfig where
  gain : Int
  ppmCorrection : Int
  sampleRate : Nat
deriving DecidableEq

/-- The `recording` section of `ReceiverConfig` (fields the capture code
reads; `minSignalStrength` is a dB level compared against FFT peak power). -/
structure RecordingConfig where
  recordingsDir : String
  imagesDir : String
  minSignalStrength : Rat
  skipSignalCheck : Bool
deriving DecidableEq

/-- `ReceiverConfig`, restricted to the sections the capture code reads. -/
structure ReceiverConfig where
  sdr : SdrConfig
  recording : RecordingConfig
deriving DecidableEq

/-- `SSTV_SAMPLE_RATE` from `recorder.ts`. -/
def SSTV_SAMPLE_RATE : Nat := 48000

/-- A `spawn(cmd, args)` invocation. -/
structure SpawnSpec where
  cmd : String
  args : List String
deriving DecidableEq

/-- The source and sink processes `startRecording` spawns.  `outputPath` is
`join(recordingsDir, generateFilename(name, 'wav'))`; the filename helper
lives in `utils/fs` (not part of the capture sources), so the path is taken
as an argument. -/
def startRecordingSpawns (satellite : SatelliteInfo) (config : ReceiverConfig)
    (outputPath : String) : SpawnSpec × SpawnSpec :=
  let freqHz := toString satellite.frequency
  let isBaseband :=
    match satellite.signalConfig with
    | some sc => sc.demodulation == "baseband"
    | none => false
  let isSstv := satellite.signalType == "sstv"
  let sampleRate :=
    if isBaseband then
      match satellite.signalConfig with
      | some sc => sc.sampleRate
      | none => 1024000
    else if isSstv then SSTV_SAMPLE_RATE
    else config.sdr.sampleRate
  if isBaseband then
    (⟨"rtl_sdr",
      ["-f", freqHz, "-s", toString sampleRate, "-g", toString config.sdr.gain,
       "-p", toString config.sdr.ppmCorrection, "-"]⟩,
     ⟨"sox",
      ["-t", "raw", "-r", toString sampleRate, "-e", "unsigned-integer",
       "-b", "8", "-c", "2", "-", "-t", "wav", "-e", "signed-integer",
       "-b", "16", outputPath]⟩)
  else
    (⟨"rtl_fm",
      ["-f", freqHz, "-s", toString sampleRate, "-g", toString config.sdr.gain,
       "-p", toString config.sdr.ppmCorrection, "-E",
       if isSstv then "dc" else "deemp", "-F", "9", "-"]⟩,
     ⟨"sox",
      ["-t", "raw", "-r", toString sampleRate, "-e", "s", "-b", "16",
       "-c", "1", "-", "-t", "wav", outputPath]⟩)

/-! ### `killAndWait` and `session.stop()`

`killAndWait(proc, name, timeoutMs)` resolves when the child emits `close`;
it sends SIGTERM immediately and arms a timer that sends SIGKILL after
`timeoutMs` **only if** `!proc.killed && proc.exitCode === null` still holds.
Node sets `ChildProcess.killed` to `true` as soon as `kill()` successfully
sends *any* signal (the repository's own test mock does the same), so the
flag is modelled that way.

A child's behaviour is an environment choice: the `killed`/`exitCode`
state it is in when `killAndWait` is entered, how long after SIGTERM it
emits `close` (`none` = it ignores SIGTERM and never exits from it), and
how long after SIGKILL it would take to die. -/

/-- Observable process events of the shutdown sequence, timestamped in ms. -/
inductive ProcEv
  | sigterm (name : String)
  | sigkill (name : String)
  | closed (name : String)
deriving DecidableEq

/-- Environment model of one child process at the time `killAndWait` runs. -/
structure ProcBehavior where
  name : String
  killedFlag : Bool
  exitCode : Option Int
  termDelay : Option Nat
  killDelay : Nat
deriving DecidableEq

/-- Trace semantics of `killAndWait(proc, name, timeoutMs)` starting at
absolute time `t0`: the timestamped events, whether the returned promise ever
resolves, and the resolution time.

If the process is already killed or has an exit code, the promise resolves at
once with no events.  Otherwise SIGTERM is sent (setting the `killed` flag),
and the promise resolves when `close` fires.  The escalation timer fires at
`t0 + timeoutMs`, but its guard `!proc.killed && proc.exitCode === null` is
false from the moment the SIGTERM was sent, so it never sends SIGKILL; if the
process ignores SIGTERM the promise therefore never resolves. -/
def killAndWait (p : ProcBehavior) (timeoutMs : Nat) (t0 : Nat) :
    List (Nat × ProcEv) × Bool × Nat :=
  if p.killedFlag ∨ p.exitCode ≠ none then ([], true, t0)
  else
    match p.termDelay with
    | some d => ([(t0, ProcEv.sigterm p.name), (t0 + d, ProcEv.closed p.name)], true, t0 + d)
    | none => ([(t0, ProcEv.sigterm p.name)], false, 0)

/-- `session.stop()` from `startRecording`: `killAndWait(rtlProcess, 'rtl_fm')`
(default 3000 ms timeout), then — only once that resolved —
`killAndWait(soxProcess, 'sox', 5000)`. -/
def sessionStop (rtl sox : ProcBehavior) (t0 : Nat) :
    List (Nat × ProcEv) × Bool × Nat :=
  let r := killAndWait rtl 3000 t0
  if r.2.1 then
    let s := killAndWait sox 5000 r.2.2
    (r.1 ++ s.1, s.2.1, s.2.2)
  else
    (r.1, false, 0)

/-! ## Capture data model

`SystemState.status` values, state-bus events, and `CaptureResult` as the
capture paths build it.  Progress-bar updates (`updateProgress`) and log
lines are omitted from the event traces: they carry no state the claims
mention. -/

/-- `SystemState.status`. -/
inductive Status
  | idle
  | waiting
  | scanning
  | capturing
  | decoding
deriving DecidableEq

/-- Observable actions of the capture paths, in program order. -/
inductive Ev
  | setStatus (s : Status)
  | setScanningFrequency (freq : Nat) (name : String)
  | startManualCapture
  | startPass
  | startFFT (freq : Nat)
  | stopFFT
  | sleepEv (ms : Nat)
  | recordStart (freq : Nat) (durationSeconds : Nat)
  | decodeStart (path : String)
  | saveCapture
  | saveImages
deriving DecidableEq

/-- `CaptureResult` (fields the capture paths write; `startTime`, `endTime`
and `maxSignalStrength` are wall-clock/diagnostic data no claim reads). -/
structure CaptureResult where
  satelliteName : String
  frequency : Nat
  recordingPath : String
  imagePaths : List String
  success : Bool
  error : Option String := none
deriving DecidableEq

/-! ## Manual SSTV capture (`capture/sstv-manual.ts`)

`captureSstvManual(frequency, durationSeconds, config)` records at a fixed
frequency with a virtual satellite, decodes, saves best-effort, and returns
the `CaptureResult` (or `null` when recording or decoding throws). -/

/-- Environment of one `captureSstvManual` run: whether `getFFTStreamConfig()`
reports a running stream, the outcome of `recordPass` (recording path or
thrown error), the outcome of `decodeRecording` (`outputPaths`, where a null
decoder result is the empty list, or a thrown error), and whether the
database insert succeeds. -/
structure ManualEnv where
  fftRunning : Bool
  recOut : Except String String
  decOut : Except String (List String)
  dbOk : Bool

/-- The name of the virtual satellite, `Manual ${(frequency / 1e6).toFixed(3)} MHz`.
For frequencies that are whole numbers of Hz, `toFixed(3)` prints the kHz value
rounded to the nearest unit (ties away from zero on the exact decimal value),
which `(frequency + 500) / 1000` computes. -/
def manualName (frequency : Nat) : String :=
  let khz := (frequency + 500) / 1000
  let frac := khz % 1000
  let fracStr :=
    if frac < 10 then "00" ++ toString frac
    else if frac < 100 then "0" ++ toString frac
    else toString frac
  "Manual " ++ toString (khz / 1000) ++ "." ++ fracStr ++ " MHz"

/-- `captureSstvManual`: the returned result and the event trace. -/
def captureSstvManual (env : ManualEnv) (frequency durationSeconds : Nat) :
    Option CaptureResult × List Ev :=
  let pre :=
    [Ev.startManualCapture] ++
      (if env.fftRunning then [Ev.stopFFT, Ev.sleepEv 1000] else [])
  match env.recOut with
  | Except.error _ =>
      -- recordPass threw: catch → setStatus('idle'), return null
      (none, pre ++ [Ev.recordStart frequency durationSeconds, Ev.setStatus Status.idle])
  | Except.ok recordingPath =>
      let evs1 := pre ++ [Ev.recordStart frequency durationSeconds,
        Ev.setStatus Status.decoding, Ev.decodeStart recordingPath]
      match env.decOut with
      | Except.error _ =>
          -- decodeRecording threw: catch → setStatus('idle'), return null
          (none, evs1 ++ [Ev.setStatus Status.idle])
      | Except.ok imagePaths =>
          let result : CaptureResult :=
            { satelliteName := manualName frequency
              frequency := frequency
              recordingPath := recordingPath
              imagePaths := imagePaths
              success := decide (0 < imagePaths.length) }
          let dbEvs :=
            if env.dbOk then
              [Ev.saveCapture] ++
                (if 0 < imagePaths.length then [Ev.saveImages] else [])
            else []
          (some result, evs1 ++ dbEvs ++ [Ev.setStatus Status.idle])

/-! ## Scheduler `capturePass`

Modelled from the spec: the scheduler source (`backend/scheduler.ts`) is not
among the capture sources, only its test suite is.  §4.6 of the spec gives
the per-pass algorithm (stop FFT, optional signal check, record, decode,
best-effort persist, broadcast), the §7 error table states that a decoder
returning no image yields a `CaptureResult` with `success=true` but empty
`image_paths`, and the repository's scheduler tests assert exactly that
(`'should handle decoder returning no images'` expects `success = true` and
`imagePaths = []`), as well as `success=false` with error `'Signal too weak'`
when `verifySignal` fails and `success=false` carrying the error message when
recording throws.  Only the returned `CaptureResult` is modelled. -/

/-- Environment of one scheduled `capturePass` run. -/
structure SchedEnv where
  signalOk : Bool
  recOut : Except String String
  decOut : List String
  dbOk : Bool

/-- Modelled from the spec: `capturePass` of the scheduler (source absent from
the capture sources; behaviour fixed by spec §4.6, the §7 `decode_failed` row,
and the scheduler test suite). -/
def capturePass (env : SchedEnv) (config : ReceiverConfig)
    (satelliteName : String) (frequency : Nat) : CaptureResult :=
  if ¬config.recording.skipSignalCheck ∧ ¬env.signalOk then
    { satelliteName := satelliteName, frequency := frequency,
      recordingPath := "", imagePaths := [], success := false,
      error := some "Signal too weak" }
  else
    match env.recOut with
    | Except.error e =>
        { satelliteName := satelliteName, frequency := frequency,
          recordingPath := "", imagePaths := [], success := false,
          error := some e }
    | Except.ok recordingPath =>
        { satelliteName := satelliteName, frequency := frequency,
          recordingPath := recordingPath, imagePaths := env.decOut,
          success := true }

/-! ## SSTV scanner (`capture/sstv-scanner.ts`)

`scanForSstv` loops over the 2 m SSTV frequency list, dwells 20 s per
frequency sampling FFT band power every 500 ms, and on detection seizes the
SDR and records.  The embedding threads an explicit state through the
control flow:

* `now` — `Date.now()` in ms, advanced by the awaited sleeps and by the
  recording duration;
* `status` — the `stateManager` status;
* `isScanning` / `shouldStop` — the module-level scanner flags.  A
  `stopSstvScanner()` call issued *while the scan is running* is modelled by
  `ScanEnv.stopTime`: from that instant on, reads of `shouldStop` return
  true (the flag is only ever set by `stopSstvScanner` and cleared at scan
  start, so its reads are monotone in time during a scan);
* `peakN` / `capN` — counters indexing the environment's answers for
  `getPeakPowerInBand` calls and capture attempts.

`decodeRecording` is CPU work whose duration no claim depends on; it is
modelled as instantaneous.  A successful `recordPass` takes its full
duration; a throwing one takes `recElapsed` ms. -/

/-- Threaded scanner state. -/
structure St where
  now : Nat
  status : Status
  isScanning : Bool
  shouldStop : Bool
  peakN : Nat
  capN : Nat
deriving DecidableEq

/-- Environment of one `scanForSstv` run. -/
structure ScanEnv where
  fftRunning : Bool
  stopTime : Option Nat
  peak : Nat → Option Rat
  recOut : Nat → Except String String
  recElapsed : Nat → Nat
  decOut : Nat → Except String (List String)
  dbOk : Nat → Bool

/-- A read of the module flag `shouldStop` at state `st`. -/
def readStop (env : ScanEnv) (st : St) : Bool :=
  st.shouldStop ||
    (match env.stopTime with
     | some t => decide (t ≤ st.now)
     | none => false)

/-- `SSTV_SCAN_FREQUENCIES` from `sstv-scanner.ts` (the 145.5 MHz alternate is
commented out in the source). -/
def SSTV_SCAN_FREQUENCIES : List (Nat × String) := [(144500000, "2m SSTV Calling")]

/-- `SSTV_RECORD_DURATION_SECONDS` from `sstv-scanner.ts`. -/
def SSTV_RECORD_DURATION_SECONDS : Nat := 150

/-- Result of a loop section: the value returned (if the section returns),
the state after it, and its event trace. -/
structure ScanOut where
  result : Option CaptureResult
  st : St
  evs : List Ev
deriving DecidableEq

/-- Result of the 20 s dwell loop. -/
structure DwellOut where
  hasSignal : Bool
  st : St
  evs : List Ev
deriving DecidableEq

/-- The dwell loop
`for (let i = 0; i < 40 && !shouldStop && Date.now() < endTime; i++)`:
sleep 500 ms, read `getPeakPowerInBand(10 kHz)`, and break with a detection
as soon as a sample strictly exceeds the threshold
(`if (bandPower > signalThreshold)`).  `fuel` counts the remaining
iterations, starting at 40.  The `maxSeenPower` accumulator of the source
feeds only log lines and is omitted. -/
def dwellLoop (env : ScanEnv) (threshold : Rat) (endTime : Nat) :
    Nat → St → DwellOut
  | 0, st => ⟨false, st, []⟩
  | fuel + 1, st =>
    if readStop env st || decide (endTime ≤ st.now) then ⟨false, st, []⟩
    else
      let st1 : St := { st with now := st.now + 500, peakN := st.peakN + 1 }
      match env.peak st.peakN with
      | none =>
          let d := dwellLoop env threshold endTime fuel st1
          ⟨d.hasSignal, d.st, Ev.sleepEv 500 :: d.evs⟩
      | some q =>
          if threshold < q then ⟨true, st1, [Ev.sleepEv 500]⟩
          else
            let d := dwellLoop env threshold endTime fuel st1
            ⟨d.hasSignal, d.st, Ev.sleepEv 500 :: d.evs⟩

/-- `captureSstv(info, config, durationSeconds)` from `sstv-scanner.ts`:
start the virtual pass, record, decode, persist best-effort, and return the
result; any throw from recording or decoding is caught, sets status `idle`
and returns `null`.  `n`-th capture attempt outcomes come from the
environment. -/
def captureSstv (env : ScanEnv) (freq : Nat) (name : String)
    (durationSeconds : Nat) (st : St) : ScanOut :=
  let n := st.capN
  let st0 : St := { st with capN := n + 1 }
  match env.recOut n with
  | Except.error _ =>
      ⟨none, { st0 with now := st0.now + env.recElapsed n, status := Status.idle },
        [Ev.startPass, Ev.recordStart freq durationSeconds, Ev.setStatus Status.idle]⟩
  | Except.ok path =>
      let st1 : St :=
        { st0 with now := st0.now + durationSeconds * 1000, status := Status.decoding }
      let evs1 := [Ev.startPass, Ev.recordStart freq durationSeconds,
        Ev.setStatus Status.decoding, Ev.decodeStart path]
      match env.decOut n with
      | Except.error _ =>
          ⟨none, { st1 with status := Status.idle }, evs1 ++ [Ev.setStatus Status.idle]⟩
      | Except.ok paths =>
          let r : CaptureResult :=
            { satelliteName := name, frequency := freq, recordingPath := path,
              imagePaths := paths, success := decide (0 < paths.length) }
          let dbEvs :=
            if env.dbOk n then
              [Ev.saveCapture] ++ (if 0 < paths.length then [Ev.saveImages] else [])
            else []
          ⟨some r, { st1 with status := Status.idle }, evs1 ++ dbEvs ++ [Ev.setStatus Status.idle]⟩

/-- The body of the `for (const freq of SSTV_SCAN_FREQUENCIES)` loop after its
break check: broadcast the scanning frequency, dwell, and on detection stop
the FFT stream, sleep 1 s, record for `SSTV_RECORD_DURATION_SECONDS`, then
either return the successful result (clearing `isScanning`) or set status
back to `scanning` and continue. -/
def freqStep (env : ScanEnv) (config : ReceiverConfig) (endTime : Nat)
    (freq : Nat × String) (st : St) : ScanOut :=
  let d := dwellLoop env config.recording.minSignalStrength endTime 40 st
  let evs0 := Ev.setScanningFrequency freq.1 freq.2 :: d.evs
  if d.hasSignal && !readStop env d.st then
    let st2 : St := { d.st with now := d.st.now + 1000 }
    let c := captureSstv env freq.1 freq.2 SSTV_RECORD_DURATION_SECONDS st2
    let evs1 := evs0 ++ [Ev.stopFFT, Ev.sleepEv 1000] ++ c.evs
    match c.result with
    | some r =>
        if r.success then ⟨some r, { c.st with isScanning := false }, evs1⟩
        else ⟨none, { c.st with status := Status.scanning },
          evs1 ++ [Ev.setStatus Status.scanning]⟩
    | none =>
        ⟨none, { c.st with status := Status.scanning },
          evs1 ++ [Ev.setStatus Status.scanning]⟩
  else ⟨none, d.st, evs0⟩

/-- The `for (const freq of SSTV_SCAN_FREQUENCIES)` loop: each iteration first
re-checks `shouldStop || Date.now() >= endTime` and breaks, then runs
`freqStep`; a returned result propagates out. -/
def processFreqs (env : ScanEnv) (config : ReceiverConfig) (endTime : Nat) :
    List (Nat × String) → St → ScanOut
  | [], st => ⟨none, st, []⟩
  | f :: rest, st =>
      if readStop env st || decide (endTime ≤ st.now) then ⟨none, st, []⟩
      else
        let o := freqStep env config endTime f st
        match o.result with
        | some r => ⟨some r, o.st, o.evs⟩
        | none =>
            let o2 := processFreqs env config endTime rest o.st
            ⟨o2.result, o2.st, o.evs ++ o2.evs⟩

theorem dwellLoop_now_le (env : ScanEnv) (threshold : Rat) (endTime : Nat) :
    ∀ fuel st, st.now ≤ (dwellLoop env threshold endTime fuel st).st.now := by
  intro fuel
  induction fuel with
  | zero => intro st; exact Nat.le_refl _
  | succ m ih =>
      intro st
      rw [dwellLoop]
      split
      · exact Nat.le_refl _
      · dsimp only
        split
        · have h := ih { st with now := st.now + 500, peakN := st.peakN + 1 }
          dsimp only at h ⊢
          omega
        · split
          · dsimp only; omega
          · have h := ih { st with now := st.now + 500, peakN := st.peakN + 1 }
            dsimp only at h ⊢
            omega

theorem dwellLoop_advance (env : ScanEnv) (threshold : Rat) (endTime : Nat)
    (fuel : Nat) (st : St) (h1 : readStop env st = false) (h2 : st.now < endTime) :
    st.now + 500 ≤ (dwellLoop env threshold endTime (fuel + 1) st).st.now := by
  rw [dwellLoop]
  have hcond : (readStop env st || decide (endTime ≤ st.now)) = false := by
    simp [h1]; omega
  simp only [hcond, Bool.false_eq_true, if_false]
  split
  · have h := dwellLoop_now_le env threshold endTime fuel
      { st with now := st.now + 500, peakN := st.peakN + 1 }
    dsimp only at h ⊢
    omega
  · split
    · dsimp only; omega
    · have h := dwellLoop_now_le env threshold endTime fuel
        { st with now := st.now + 500, peakN := st.peakN + 1 }
      dsimp only at h ⊢
      omega

theorem captureSstv_now_le (env : ScanEnv) (freq : Nat) (name : String)
    (durationSeconds : Nat) (st : St) :
    st.now ≤ (captureSstv env freq name durationSeconds st).st.now := by
  rw [captureSstv]
  split
  · dsimp only; omega
  · dsimp only
    split
    · dsimp only; omega
    · dsimp only; omega

theorem freqStep_now_le (env : ScanEnv) (config : ReceiverConfig)
    (endTime : Nat) (freq : Nat × String) (st : St) :
    st.now ≤ (freqStep env config endTime freq st).st.now := by
  rw [freqStep]
  have hd := dwellLoop_now_le env config.recording.minSignalStrength endTime 40 st
  dsimp only
  split
  · have hc := captureSstv_now_le env freq.1 freq.2 SSTV_RECORD_DURATION_SECONDS
      { (dwellLoop env config.recording.minSignalStrength endTime 40 st).st with
        now := (dwellLoop env config.recording.minSignalStrength endTime 40 st).st.now + 1000 }
    dsimp only at hc
    split
    · split
      · dsimp only; omega
      · dsimp only; omega
    · dsimp only; omega
  · exact hd

theorem freqStep_advance (env : ScanEnv) (config : ReceiverConfig)
    (endTime : Nat) (freq : Nat × String) (st : St)
    (h1 : readStop env st = false) (h2 : st.now < endTime) :
    st.now + 500 ≤ (freqStep env config endTime freq st).st.now := by
  rw [freqStep]
  have hd := dwellLoop_advance env config.recording.minSignalStrength endTime 39 st h1 h2
  norm_num at hd
  dsimp only
  split
  · have hc := captureSstv_now_le env freq.1 freq.2 SSTV_RECORD_DURATION_SECONDS
      { (dwellLoop env config.recording.minSignalStrength endTime 40 st).st with
        now := (dwellLoop env config.recording.minSignalStrength endTime 40 st).st.now + 1000 }
    dsimp only at hc
    split
    · split
      · dsimp only; omega
      · dsimp only; omega
    · dsimp only; omega
  · exact hd

theorem processFreqs_now_le (env : ScanEnv) (config : ReceiverConfig)
    (endTime : Nat) :
    ∀ freqs st, st.now ≤ (processFreqs env config endTime freqs st).st.now := by
  intro freqs
  induction freqs with
  | nil => intro st; exact Nat.le_refl _
  | cons f rest ih =>
      intro st
      rw [processFreqs]
      split
      · exact Nat.le_refl _
      · dsimp only
        have hf := freqStep_now_le env config endTime f st
        split
        · dsimp only
          omega
        · have hr := ih (freqStep env config endTime f st).st
          dsimp only
          omega

theorem processFreqs_cons_advance (env : ScanEnv) (config : ReceiverConfig)
    (endTime : Nat) (f : Nat × String) (rest : List (Nat × String)) (st : St)
    (h1 : readStop env st = false) (h2 : st.now < endTime) :
    st.now + 500 ≤ (processFreqs env config endTime (f :: rest) st).st.now := by
  rw [processFreqs]
  have hcond : (readStop env st || decide (endTime ≤ st.now)) = false := by
    simp [h1]; omega
  simp only [hcond, Bool.false_eq_true, if_false]
  have hf := freqStep_advance env config endTime f st h1 h2
  split
  · dsimp only; omega
  · have hr := processFreqs_now_le env config endTime rest
      (freqStep env config endTime f st).st
    dsimp only
    omega

theorem processFreqs_scan_advance (env : ScanEnv) (config : ReceiverConfig)
    (endTime : Nat) (st : St)
    (h1 : readStop env st = false) (h2 : st.now < endTime) :
    st.now + 500 ≤ (processFreqs env config endTime SSTV_SCAN_FREQUENCIES st).st.now :=
  processFreqs_cons_advance env config endTime (144500000, "2m SSTV Calling") [] st h1 h2

/-- The `while (!shouldStop && Date.now() < endTime)` loop of `scanForSstv`.
Termination: each pass through the body advances `now` by at least one 500 ms
dwell sample. -/
def scanLoop (env : ScanEnv) (config : ReceiverConfig) (endTime : Nat)
    (st : St) : ScanOut :=
  if h : readStop env st = false ∧ st.now < endTime then
    match ho : processFreqs env config endTime SSTV_SCAN_FREQUENCIES st with
    | ⟨some r, st2, evs⟩ => ⟨some r, st2, evs⟩
    | ⟨none, st2, evs⟩ =>
        have hadv : st.now + 500 ≤ st2.now := by
          have h3 := processFreqs_scan_advance env config endTime st h.1 h.2
          rw [ho] at h3
          exact h3
        let o2 := scanLoop env config endTime st2
        ⟨o2.result, o2.st, evs ++ o2.evs⟩
  else ⟨none, st, []⟩
termination_by endTime - st.now
decreasing_by
  obtain ⟨h1, h2⟩ := h
  omega

/-- The body of `scanForSstv` before its `finally` clause: mark the scan
running, clear the stop flag, set status `scanning`, start the FFT stream if
needed (with a 2 s settle), then run the scan loop bounded by
`maxDurationSeconds`. -/
def scanTry (env : ScanEnv) (config : ReceiverConfig)
    (maxDurationSeconds : Nat) (st : St) : ScanOut :=
  let st1 : St :=
    { st with isScanning := true, shouldStop := false, status := Status.scanning }
  let startPair :=
    if env.fftRunning then (st1, ([] : List Ev))
    else
      match SSTV_SCAN_FREQUENCIES with
      | [] => (st1, ([] : List Ev))
      | f :: _ =>
          ({ st1 with now := st1.now + 2000 }, [Ev.startFFT f.1, Ev.sleepEv 2000])
  let st2 := startPair.1
  let endTime := st2.now + maxDurationSeconds * 1000
  let o := scanLoop env config endTime st2
  ⟨o.result, o.st, Ev.setStatus Status.scanning :: startPair.2 ++ o.evs⟩

/-- The `finally` clause of `scanForSstv`: clear `isScanning` and, only if the
status is still `scanning`, reset it to `idle`. -/
def scanFinally (o : ScanOut) : ScanOut :=
  let st1 : St := { o.st with isScanning := false }
  if st1.status = Status.scanning then
    ⟨o.result, { st1 with status := Status.idle }, o.evs ++ [Ev.setStatus Status.idle]⟩
  else ⟨o.result, st1, o.evs⟩

/-- `scanForSstv(config, maxDurationSeconds = 120)`: `null` at once if a scan
is already in flight, otherwise the guarded body followed by the `finally`
clause on every exit path. -/
def scanForSstv (env : ScanEnv) (config : ReceiverConfig) (st : St)
    (maxDurationSeconds : Nat := 120) : ScanOut :=
  if st.isScanning then ⟨none, st, []⟩
  else scanFinally (scanTry env config maxDurationSeconds st)

/-- `stopSstvScanner()`: sets the cooperative stop flag. -/
def stopSstvScanner (st : St) : St := { st with shouldStop := true }

/-- `isSstvScannerRunning()`. -/
def isSstvScannerRunning (st : St) : Bool := st.isScanning

/-! ## Claim theorems -/

/-- `SIGNAL_CONFIGS.sstv` from `satellites/constants.ts`; the manual-capture
test asserts it verbatim:
`{ type: 'sstv', bandwidth: 3000, sampleRate: 48000, demodulation: 'fm' }`. -/
def SIGNAL_CONFIGS_sstv : SignalConfig :=
  { type := "sstv", bandwidth := 3000, sampleRate := 48000, demodulation := "fm" }

/-- C8: `startRecording` selects the pipeline by signal kind.  An SSTV
satellite (signal type `sstv`, the repository's FM SSTV signal config) gets
`rtl_fm` with the DC-blocking filter (`-E dc`), FIR order 9 (`-F 9`) at
48 000 Hz, piped into `sox` writing 16-bit signed mono WAV; a baseband-IQ
satellite whose signal config carries the LRPT rate 1 024 000 Hz gets a raw
`rtl_sdr` IQ dump at that rate piped into `sox` converting unsigned 8-bit
2-channel input into a 16-bit signed WAV. -/
theorem claim_C8_pipeline_selection :
    (∀ (sat : SatelliteInfo) (config : ReceiverConfig) (outputPath : String),
      sat.signalType = "sstv" → sat.signalConfig = some SIGNAL_CONFIGS_sstv →
      startRecordingSpawns sat config outputPath =
        (⟨"rtl_fm", ["-f", toString sat.frequency, "-s", "48000",
            "-g", toString config.sdr.gain, "-p", toString config.sdr.ppmCorrection,
            "-E", "dc", "-F", "9", "-"]⟩,
         ⟨"sox", ["-t", "raw", "-r", "48000", "-e", "s", "-b", "16", "-c", "1",
            "-", "-t", "wav", outputPath]⟩)) ∧
    (∀ (sat : SatelliteInfo) (config : ReceiverConfig) (outputPath : String)
        (sc : SignalConfig),
      sat.signalConfig = some sc → sc.demodulation = "baseband" →
      sc.sampleRate = 1024000 →
      startRecordingSpawns sat config outputPath =
        (⟨"rtl_sdr", ["-f", toString sat.frequency, "-s", "1024000",
            "-g", toString config.sdr.gain, "-p", toString config.sdr.ppmCorrection,
            "-"]⟩,
         ⟨"sox", ["-t", "raw", "-r", "1024000", "-e", "unsigned-integer",
            "-b", "8", "-c", "2", "-", "-t", "wav", "-e", "signed-integer",
            "-b", "16", outputPath]⟩)) := by
  constructor
  · intro sat config outputPath hty hcfg
    simp [startRecordingSpawns, hty, hcfg, SIGNAL_CONFIGS_sstv, SSTV_SAMPLE_RATE]
    rfl
  · intro sat config outputPath sc hcfg hdem hsr
    simp [startRecordingSpawns, hcfg, hdem, hsr]
    rfl

/-- Witness for C8: the ISS SSTV satellite and a METEOR LRPT satellite at
their configured rates. -/
theorem claim_C8_witness :
    startRecordingSpawns
        ⟨"ISS (ZARYA)", 25544, 145800000, "sstv", some SIGNAL_CONFIGS_sstv, true⟩
        ⟨⟨40, 0, 48000⟩, ⟨"/recordings", "/images", -10, false⟩⟩
        "/recordings/iss.wav" =
      (⟨"rtl_fm", ["-f", "145800000", "-s", "48000", "-g", "40", "-p", "0",
          "-E", "dc", "-F", "9", "-"]⟩,
       ⟨"sox", ["-t", "raw", "-r", "48000", "-e", "s", "-b", "16", "-c", "1",
          "-", "-t", "wav", "/recordings/iss.wav"]⟩) ∧
    startRecordingSpawns
        ⟨"METEOR-M N2-3", 57166, 137900000, "lrpt",
          some ⟨"lrpt", 120000, 1024000, "baseband"⟩, true⟩
        ⟨⟨40, 0, 48000⟩, ⟨"/recordings", "/images", -10, false⟩⟩
        "/recordings/meteor.wav" =
      (⟨"rtl_sdr", ["-f", "137900000", "-s", "1024000", "-g", "40", "-p", "0",
          "-"]⟩,
       ⟨"sox", ["-t", "raw", "-r", "1024000", "-e", "unsigned-integer",
          "-b", "8", "-c", "2", "-", "-t", "wav", "-e", "signed-integer",
          "-b", "16", "/recordings/meteor.wav"]⟩) := by
  constructor
  · have h := claim_C8_pipeline_selection.1
      ⟨"ISS (ZARYA)", 25544, 145800000, "sstv", some SIGNAL_CONFIGS_sstv, true⟩
      ⟨⟨40, 0, 48000⟩, ⟨"/recordings", "/images", -10, false⟩⟩
      "/recordings/iss.wav" rfl rfl
    simpa using h
  · have h := claim_C8_pipeline_selection.2
      ⟨"METEOR-M N2-3", 57166, 137900000, "lrpt",
        some ⟨"lrpt", 120000, 1024000, "baseband"⟩, true⟩
      ⟨⟨40, 0, 48000⟩, ⟨"/recordings", "/images", -10, false⟩⟩
      "/recordings/meteor.wav" ⟨"lrpt", 120000, 1024000, "baseband"⟩ rfl rfl rfl
    simpa using h

/-- C3 (code bug): the stop sequence never escalates to SIGKILL.  The guard
`!proc.killed && proc.exitCode === null` on the 3 s timer is always false,
because Node sets `killed` the moment `kill('SIGTERM')` is sent.  With a
source process that ignores SIGTERM, `stop()`'s whole trace is the single
SIGTERM: no SIGKILL is ever sent, the promise never resolves, and the sink
is never signalled.  With a compliant source (exiting 100 ms after SIGTERM)
the intended order does hold: the sink's SIGTERM comes only after the
source's `close`. -/
theorem claim_C3_stop_never_escalates :
    sessionStop ⟨"rtl_fm", false, none, none, 100⟩ ⟨"sox", false, none, some 50, 100⟩ 0 =
      ([(0, ProcEv.sigterm "rtl_fm")], false, 0) ∧
    sessionStop ⟨"rtl_fm", false, none, some 100, 100⟩ ⟨"sox", false, none, some 50, 100⟩ 0 =
      ([(0, ProcEv.sigterm "rtl_fm"), (100, ProcEv.closed "rtl_fm"),
        (100, ProcEv.sigterm "sox"), (150, ProcEv.closed "sox")], true, 150) := by
  constructor
  · rfl
  · rfl

/-- C6: a database failure while persisting is only logged: the
`CaptureResult` handed back (success flag, image paths and all) is the same
whether the store insert throws or succeeds, for the manual capture and for
the scanner's capture path. -/
theorem claim_C6_store_failure_nonfatal :
    (∀ (env : ManualEnv) (frequency durationSeconds : Nat) (b1 b2 : Bool),
      (captureSstvManual { env with dbOk := b1 } frequency durationSeconds).1 =
        (captureSstvManual { env with dbOk := b2 } frequency durationSeconds).1) ∧
    (∀ (env : ScanEnv) (freq : Nat) (name : String) (durationSeconds : Nat)
        (st : St) (f1 f2 : Nat → Bool),
      (captureSstv { env with dbOk := f1 } freq name durationSeconds st).result =
        (captureSstv { env with dbOk := f2 } freq name durationSeconds st).result) := by
  constructor
  · intro env frequency durationSeconds b1 b2
    cases hrec : env.recOut <;>
      simp [captureSstvManual, hrec] <;>
      cases hdec : env.decOut <;> simp [hdec]
  · intro env freq name durationSeconds st f1 f2
    cases hrec : env.recOut st.capN <;>
      simp [captureSstv, hrec] <;>
      cases hdec : env.decOut st.capN <;> simp [hdec]

/-- C1 (counterexample): the claim "every CaptureResult with `success = true`
has a non-empty `imagePaths`" fails on the scheduled pass capture.  When the
recording succeeds but the decoder returns no images, `capturePass` produces
`success = true` with `imagePaths = []` (the spec's §7 `decode_failed` row and
the scheduler test `'should handle decoder returning no images'` both pin this
behaviour). -/
theorem claim_C1_counterexample :
    ¬((capturePass ⟨true, Except.ok "/tmp/recording.wav", [], true⟩
          ⟨⟨40, 0, 48000⟩, ⟨"/recordings", "/images", -10, false⟩⟩
          "METEOR-M N2-3" 137900000).success = true →
      (capturePass ⟨true, Except.ok "/tmp/recording.wav", [], true⟩
          ⟨⟨40, 0, 48000⟩, ⟨"/recordings", "/images", -10, false⟩⟩
          "METEOR-M N2-3" 137900000).imagePaths ≠ []) := by
  simp [capturePass]

/-- C1 (amended): for the manual SSTV capture and for the scanner's capture
path, `success = true` implies at least one image path (both compute
`success` as `imagePaths.length > 0`).  The scheduled pass capture instead
marks `success = true` whenever the signal check and the recording succeed
and passes the decoder's output through unchanged, so there `success = true`
does not bound `imagePaths`. -/
theorem claim_C1_success_images :
    (∀ (env : ManualEnv) (frequency durationSeconds : Nat) (r : CaptureResult),
      (captureSstvManual env frequency durationSeconds).1 = some r →
      r.success = true → r.imagePaths ≠ []) ∧
    (∀ (env : ScanEnv) (freq : Nat) (name : String) (durationSeconds : Nat)
        (st : St) (r : CaptureResult),
      (captureSstv env freq name durationSeconds st).result = some r →
      r.success = true → r.imagePaths ≠ []) ∧
    (∀ (env : SchedEnv) (config : ReceiverConfig) (name : String) (freq : Nat),
      (capturePass env config name freq).success = true →
      (capturePass env config name freq).imagePaths = env.decOut) := by
  refine ⟨?_, ?_, ?_⟩
  · intro env frequency durationSeconds r hr hs
    cases hrec : env.recOut <;> simp [captureSstvManual, hrec] at hr
    cases hdec : env.decOut <;> simp [hdec] at hr
    subst hr
    simp at hs
    intro hnil
    simp at hnil
    rw [hnil] at hs
    simp at hs
  · intro env freq name durationSeconds st r hr hs
    cases hrec : env.recOut st.capN <;> simp [captureSstv, hrec] at hr
    cases hdec : env.decOut st.capN <;> simp [hdec] at hr
    subst hr
    simp at hs
    intro hnil
    simp at hnil
    rw [hnil] at hs
    simp at hs
  · intro env config name freq hs
    cases hskip : config.recording.skipSignalCheck <;>
      cases hsig : env.signalOk <;>
      cases hrec : env.recOut <;>
      simp [capturePass, hskip, hsig, hrec] at hs ⊢

/-- Witness for C1: a manual capture that decodes one image yields
`success = true` and a non-empty image list. -/
theorem claim_C1_witness :
    (captureSstvManual ⟨false, Except.ok "/tmp/recording.wav",
        Except.ok ["/tmp/image1.png"], true⟩ 145800000 120).1 =
      some ⟨manualName 145800000, 145800000, "/tmp/recording.wav",
        ["/tmp/image1.png"], true, none⟩ ∧
    (⟨manualName 145800000, 145800000, "/tmp/recording.wav",
        ["/tmp/image1.png"], true, none⟩ : CaptureResult).imagePaths ≠ [] :=
  ⟨rfl, claim_C1_success_images.1
    ⟨false, Except.ok "/tmp/recording.wav", Except.ok ["/tmp/image1.png"], true⟩
    145800000 120 _ rfl rfl⟩

theorem dwellLoop_hasSignal_iff (env : ScanEnv) (threshold : Rat) (endTime : Nat) :
    ∀ (fuel : Nat) (st : St), env.stopTime = none → st.shouldStop = false →
      st.now + 500 * fuel ≤ endTime →
      ((dwellLoop env threshold endTime fuel st).hasSignal = true ↔
        ∃ i < fuel, ∃ q : Rat, env.peak (st.peakN + i) = some q ∧ threshold < q) := by
  intro fuel
  induction fuel with
  | zero =>
      intro st hstop hflag htime
      simp [dwellLoop]
  | succ m ih =>
      intro st hstop hflag htime
      have hcond : (readStop env st || decide (endTime ≤ st.now)) = false := by
        simp [readStop, hstop, hflag]
        omega
      rw [dwellLoop]
      simp only [hcond, Bool.false_eq_true, if_false]
      cases hp : env.peak st.peakN with
      | none =>
          dsimp only
          have hih := ih { st with now := st.now + 500, peakN := st.peakN + 1 }
            hstop hflag (by dsimp only; omega)
          dsimp only at hih
          rw [hih]
          constructor
          · rintro ⟨i, hi, q, hq, ht⟩
            refine ⟨i + 1, by omega, q, ?_, ht⟩
            rw [show st.peakN + (i + 1) = st.peakN + 1 + i from by omega]
            exact hq
          · rintro ⟨i, hi, q, hq, ht⟩
            cases i with
            | zero =>
                rw [Nat.add_zero, hp] at hq
                cases hq
            | succ j =>
                refine ⟨j, by omega, q, ?_, ht⟩
                rw [show st.peakN + 1 + j = st.peakN + (j + 1) from by omega]
                exact hq
      | some q0 =>
          dsimp only
          by_cases hq0 : threshold < q0
          · rw [if_pos hq0]
            dsimp only
            constructor
            · intro _
              exact ⟨0, by omega, q0, by rw [Nat.add_zero]; exact hp, hq0⟩
            · intro _
              rfl
          · rw [if_neg hq0]
            dsimp only
            have hih := ih { st with now := st.now + 500, peakN := st.peakN + 1 }
              hstop hflag (by dsimp only; omega)
            dsimp only at hih
            rw [hih]
            constructor
            · rintro ⟨i, hi, q, hq, ht⟩
              refine ⟨i + 1, by omega, q, ?_, ht⟩
              rw [show st.peakN + (i + 1) = st.peakN + 1 + i from by omega]
              exact hq
            · rintro ⟨i, hi, q, hq, ht⟩
              cases i with
              | zero =>
                  rw [Nat.add_zero, hp] at hq
                  injection hq with hq
                  rw [hq] at hq0
                  exact absurd ht hq0
              | succ j =>
                  refine ⟨j, by omega, q, ?_, ht⟩
                  rw [show st.peakN + 1 + j = st.peakN + (j + 1) from by omega]
                  exact hq

/-- C2: during a dwell (stop flag clear, no external stop, enough time before
the overall timeout), the scanner declares detection exactly when some
sampled band peak strictly exceeds `minSignalStrength` — the threshold is the
configured value itself, with no offset.  In particular a dwell whose every
sample equals `minSignalStrength` never detects, and a first sample at least
`minSignalStrength + 1` dB always does. -/
theorem claim_C2_threshold_semantics (env : ScanEnv) (config : ReceiverConfig)
    (endTime : Nat) (st : St)
    (hstop : env.stopTime = none) (hflag : st.shouldStop = false)
    (htime : st.now + 500 * 40 ≤ endTime) :
    ((dwellLoop env config.recording.minSignalStrength endTime 40 st).hasSignal = true ↔
      ∃ i < 40, ∃ q : Rat, env.peak (st.peakN + i) = some q ∧
        config.recording.minSignalStrength < q) ∧
    ((∀ i, env.peak i = some config.recording.minSignalStrength) →
      (dwellLoop env config.recording.minSignalStrength endTime 40 st).hasSignal = false) ∧
    (∀ q : Rat, env.peak st.peakN = some q →
      config.recording.minSignalStrength + 1 ≤ q →
      (dwellLoop env config.recording.minSignalStrength endTime 40 st).hasSignal = true) := by
  have hiff := dwellLoop_hasSignal_iff env config.recording.minSignalStrength endTime
    40 st hstop hflag htime
  refine ⟨hiff, ?_, ?_⟩
  · intro hall
    cases hsig : (dwellLoop env config.recording.minSignalStrength endTime 40 st).hasSignal
    · rfl
    · exfalso
      obtain ⟨i, _, q, hq, ht⟩ := hiff.mp hsig
      rw [hall (st.peakN + i)] at hq
      injection hq with hq
      rw [hq] at ht
      exact lt_irrefl _ ht
  · intro q hq hge
    exact hiff.mpr ⟨0, by omega, q, by rw [Nat.add_zero]; exact hq, by linarith⟩

/-- Witness for C2: a constant 0 dB band peak against a −35 dB threshold
triggers detection on the first sample. -/
theorem claim_C2_witness :
    (dwellLoop
        ⟨true, none, fun _ => some 0, fun _ => Except.ok "",
          fun _ => 0, fun _ => Except.ok [], fun _ => true⟩
        ((⟨⟨40, 0, 48000⟩, ⟨"/recordings", "/images", -35, false⟩⟩ :
            ReceiverConfig)).recording.minSignalStrength
        20000 40 ⟨0, Status.scanning, true, false, 0, 0⟩).hasSignal = true :=
  (claim_C2_threshold_semantics
      ⟨true, none, fun _ => some 0, fun _ => Except.ok "",
        fun _ => 0, fun _ => Except.ok [], fun _ => true⟩
      ⟨⟨40, 0, 48000⟩, ⟨"/recordings", "/images", -35, false⟩⟩
      20000 ⟨0, Status.scanning, true, false, 0, 0⟩
      rfl rfl (by norm_num)).2.2 0 rfl (by norm_num)

theorem captureSstv_evs_head (env : ScanEnv) (freq : Nat) (name : String)
    (durationSeconds : Nat) (st : St) :
    ∃ tail, (captureSstv env freq name durationSeconds st).evs =
      Ev.startPass :: Ev.recordStart freq durationSeconds :: tail := by
  rw [captureSstv]
  split
  · exact ⟨_, rfl⟩
  · dsimp only
    split
    · exact ⟨_, rfl⟩
    · exact ⟨_, rfl⟩

/-- C4: when the dwell detects a carrier (and no stop was requested), the
frequency step stops the FFT stream, sleeps 1 s for USB release, and runs
`captureSstv` for exactly `SSTV_RECORD_DURATION_SECONDS` (150 s), in that
order; a capture without `success = true` makes the step yield no result
(the scan continues) with status set back to `scanning`, while a successful
capture is returned as the step's result. -/
theorem claim_C4_detection_sequence (env : ScanEnv) (config : ReceiverConfig)
    (endTime : Nat) (freq : Nat × String) (st : St)
    (hdet : (dwellLoop env config.recording.minSignalStrength endTime 40 st).hasSignal
      = true)
    (hns : readStop env
      (dwellLoop env config.recording.minSignalStrength endTime 40 st).st = false) :
    (∃ tail : List Ev,
      (freqStep env config endTime freq st).evs =
        Ev.setScanningFrequency freq.1 freq.2 ::
          ((dwellLoop env config.recording.minSignalStrength endTime 40 st).evs ++
            (Ev.stopFFT :: Ev.sleepEv 1000 :: Ev.startPass ::
              Ev.recordStart freq.1 SSTV_RECORD_DURATION_SECONDS :: tail))) ∧
    (∀ r, (captureSstv env freq.1 freq.2 SSTV_RECORD_DURATION_SECONDS
        { (dwellLoop env config.recording.minSignalStrength endTime 40 st).st with
          now := (dwellLoop env config.recording.minSignalStrength endTime 40 st).st.now
            + 1000 }).result = some r →
      r.success = true → (freqStep env config endTime freq st).result = some r) ∧
    (∀ r, (captureSstv env freq.1 freq.2 SSTV_RECORD_DURATION_SECONDS
        { (dwellLoop env config.recording.minSignalStrength endTime 40 st).st with
          now := (dwellLoop env config.recording.minSignalStrength endTime 40 st).st.now
            + 1000 }).result = some r →
      r.success = false →
      (freqStep env config endTime freq st).result = none ∧
      (freqStep env config endTime freq st).st.status = Status.scanning) ∧
    ((captureSstv env freq.1 freq.2 SSTV_RECORD_DURATION_SECONDS
        { (dwellLoop env config.recording.minSignalStrength endTime 40 st).st with
          now := (dwellLoop env config.recording.minSignalStrength endTime 40 st).st.now
            + 1000 }).result = none →
      (freqStep env config endTime freq st).result = none ∧
      (freqStep env config endTime freq st).st.status = Status.scanning) := by
  have hcond : ((dwellLoop env config.recording.minSignalStrength endTime 40 st).hasSignal
      && !readStop env
        (dwellLoop env config.recording.minSignalStrength endTime 40 st).st) = true := by
    rw [hdet, hns]
    rfl
  obtain ⟨ctail, hc⟩ := captureSstv_evs_head env freq.1 freq.2
    SSTV_RECORD_DURATION_SECONDS
    { (dwellLoop env config.recording.minSignalStrength endTime 40 st).st with
      now := (dwellLoop env config.recording.minSignalStrength endTime 40 st).st.now
        + 1000 }
  refine ⟨?_, ?_, ?_, ?_⟩
  · simp only [freqStep, hcond, if_true]
    cases hres : (captureSstv env freq.1 freq.2 SSTV_RECORD_DURATION_SECONDS
        { (dwellLoop env config.recording.minSignalStrength endTime 40 st).st with
          now := (dwellLoop env config.recording.minSignalStrength endTime 40 st).st.now
            + 1000 }).result with
    | some r =>
        cases hrs : r.success
        · exact ⟨ctail ++ [Ev.setStatus Status.scanning], by
            simp [hres, hrs, hc, List.append_assoc]⟩
        · exact ⟨ctail, by simp [hres, hrs, hc, List.append_assoc]⟩
    | none =>
        exact ⟨ctail ++ [Ev.setStatus Status.scanning], by
          simp [hres, hc, List.append_assoc]⟩
  · intro r hres hrs
    simp only [freqStep, hcond, if_true, hres, hrs]
  · intro r hres hrs
    constructor <;> simp only [freqStep, hcond, if_true, hres, hrs] <;> rfl
  · intro hres
    constructor <;> simp only [freqStep, hcond, if_true, hres]

/-- A concrete scanner environment: constant 0 dB band peak, recording lands
at a fixed path, decoder finds no image, store works. -/
def c4Env : ScanEnv :=
  ⟨true, none, fun _ => some 0, fun _ => Except.ok "/recordings/test.wav",
    fun _ => 0, fun _ => Except.ok [], fun _ => true⟩

/-- A concrete receiver configuration with a −35 dB threshold. -/
def c4Cfg : ReceiverConfig :=
  ⟨⟨40, 0, 48000⟩, ⟨"/recordings", "/images", -35, false⟩⟩

/-- Scanner state at the start of a dwell. -/
def c4St : St := ⟨0, Status.scanning, true, false, 0, 0⟩

/-- Witness for C4: with a detected carrier and a capture that decodes no
image, the frequency step returns nothing and puts status back to
`scanning`. -/
theorem claim_C4_witness :
    (freqStep c4Env c4Cfg 20000 (144500000, "2m SSTV Calling") c4St).result = none ∧
    (freqStep c4Env c4Cfg 20000 (144500000, "2m SSTV Calling") c4St).st.status =
      Status.scanning :=
  (claim_C4_detection_sequence c4Env c4Cfg 20000 (144500000, "2m SSTV Calling")
      c4St (by decide) (by decide)).2.2.1
    ⟨"2m SSTV Calling", 144500000, "/recordings/test.wav", [], false, none⟩
    (by decide) (by decide)

theorem dwellLoop_status (env : ScanEnv) (threshold : Rat) (endTime : Nat) :
    ∀ fuel st, (dwellLoop env threshold endTime fuel st).st.status = st.status := by
  intro fuel
  induction fuel with
  | zero => intro st; rfl
  | succ m ih =>
      intro st
      rw [dwellLoop]
      split
      · rfl
      · dsimp only
        split
        · exact ih { st with now := st.now + 500, peakN := st.peakN + 1 }
        · split
          · rfl
          · exact ih { st with now := st.now + 500, peakN := st.peakN + 1 }

theorem captureSstv_idle (env : ScanEnv) (freq : Nat) (name : String)
    (durationSeconds : Nat) (st : St) :
    (captureSstv env freq name durationSeconds st).st.status = Status.idle := by
  rw [captureSstv]
  split
  · rfl
  · dsimp only
    split
    · rfl
    · rfl

theorem freqStep_status (env : ScanEnv) (config : ReceiverConfig)
    (endTime : Nat) (freq : Nat × String) (st : St) :
    ((freqStep env config endTime freq st).result = none →
      ((freqStep env config endTime freq st).st.status = st.status ∨
        (freqStep env config endTime freq st).st.status = Status.scanning)) ∧
    (∀ r, (freqStep env config endTime freq st).result = some r →
      (freqStep env config endTime freq st).st.status = Status.idle) := by
  rw [freqStep]
  dsimp only
  split
  · split
    · split
      · constructor
        · intro h
          cases h
        · intro r0 _
          dsimp only
          exact captureSstv_idle env freq.1 freq.2 SSTV_RECORD_DURATION_SECONDS _
      · constructor
        · intro _
          right
          rfl
        · intro r0 h
          cases h
    · constructor
      · intro _
        right
        rfl
      · intro r0 h
        cases h
  · constructor
    · intro _
      left
      exact dwellLoop_status env config.recording.minSignalStrength endTime 40 st
    · intro r0 h
      cases h

theorem processFreqs_status (env : ScanEnv) (config : ReceiverConfig)
    (endTime : Nat) :
    ∀ freqs st,
      ((processFreqs env config endTime freqs st).result = none →
        ((processFreqs env config endTime freqs st).st.status = st.status ∨
          (processFreqs env config endTime freqs st).st.status = Status.scanning)) ∧
      (∀ r, (processFreqs env config endTime freqs st).result = some r →
        (processFreqs env config endTime freqs st).st.status = Status.idle) := by
  intro freqs
  induction freqs with
  | nil =>
      intro st
      exact ⟨fun _ => Or.inl rfl, fun r h => by cases h⟩
  | cons f rest ih =>
      intro st
      rw [processFreqs]
      split
      · exact ⟨fun _ => Or.inl rfl, fun r h => by cases h⟩
      · dsimp only
        split
        · next r heq =>
            constructor
            · intro h
              dsimp only at h
              cases h
            · intro r0 h0
              dsimp only at h0 ⊢
              exact (freqStep_status env config endTime f st).2 r heq
        · next heq =>
            have hfs := (freqStep_status env config endTime f st).1 heq
            constructor
            · intro h0
              dsimp only at h0 ⊢
              rcases (ih (freqStep env config endTime f st).st).1 h0 with h1 | h1
              · rcases hfs with h2 | h2
                · exact Or.inl (h1.trans h2)
                · exact Or.inr (h1.trans h2)
              · exact Or.inr h1
            · intro r0 h0
              dsimp only at h0 ⊢
              exact (ih (freqStep env config endTime f st).st).2 r0 h0

theorem scanLoop_status (env : ScanEnv) (config : ReceiverConfig)
    (endTime : Nat) :
    ∀ st : St, st.status = Status.scanning →
      ((scanLoop env config endTime st).result = none →
        (scanLoop env config endTime st).st.status = Status.scanning) ∧
      (∀ r, (scanLoop env config endTime st).result = some r →
        (scanLoop env config endTime st).st.status = Status.idle) := by
  intro st
  induction st using scanLoop.induct env config endTime with
  | case1 st hcond r st2 evs heq =>
      intro _
      rw [scanLoop, dif_pos hcond]
      split
      · next r2 st3 evs3 ho =>
          dsimp only
          constructor
          · intro h
            cases h
          · intro r0 _
            have hp := (processFreqs_status env config endTime
              SSTV_SCAN_FREQUENCIES st).2 r2
            rw [ho] at hp
            exact hp rfl
      · next st3 evs3 ho =>
          rw [heq] at ho
          simp at ho
  | case2 st hcond st2 evs heq hadv ih =>
      intro hsc
      have hp := (processFreqs_status env config endTime SSTV_SCAN_FREQUENCIES st).1
      rw [heq] at hp
      dsimp only at hp
      have hst2 : st2.status = Status.scanning := by
        rcases hp rfl with h1 | h1
        · rw [h1]
          exact hsc
        · exact h1
      rw [scanLoop, dif_pos hcond]
      split
      · next r2 st3 evs3 ho =>
          rw [heq] at ho
          simp at ho
      · next st3 evs3 ho =>
          rw [heq] at ho
          injection ho with h1 h2 h3
          subst h2
          dsimp only
          exact ih hst2
  | case3 st hcond =>
      intro hsc
      rw [scanLoop, dif_neg hcond]
      exact ⟨fun _ => hsc, fun r h => by cases h⟩

theorem scanTry_status (env : ScanEnv) (config : ReceiverConfig)
    (maxDurationSeconds : Nat) (st : St) :
    ((scanTry env config maxDurationSeconds st).result = none →
      (scanTry env config maxDurationSeconds st).st.status = Status.scanning) ∧
    (∀ r, (scanTry env config maxDurationSeconds st).result = some r →
      (scanTry env config maxDurationSeconds st).st.status = Status.idle) := by
  rw [scanTry]
  dsimp only [SSTV_SCAN_FREQUENCIES]
  split
  · exact scanLoop_status env config _ _ rfl
  · exact scanLoop_status env config _ _ rfl

/-- C7: `scanForSstv`'s `finally` clause runs on every exit path of the
guarded body (cooperative stop, overall timeout, and the successful-capture
return; the body's awaited calls are modelled total, so no other exit
exists): the running flag is cleared, a status still `scanning` is reset to
`idle`, and a status the body already moved elsewhere is left unchanged.
Since the body ends either still `scanning` or at `idle` (set by a
successful `captureSstv`), the scan always ends with status `idle`. -/
theorem claim_C7_finally_semantics (env : ScanEnv) (config : ReceiverConfig)
    (maxDurationSeconds : Nat) (st : St) (h : st.isScanning = false) :
    (scanForSstv env config st maxDurationSeconds).st.isScanning = false ∧
    ((scanTry env config maxDurationSeconds st).st.status = Status.scanning →
      (scanForSstv env config st maxDurationSeconds).st.status = Status.idle) ∧
    ((scanTry env config maxDurationSeconds st).st.status ≠ Status.scanning →
      (scanForSstv env config st maxDurationSeconds).st.status =
        (scanTry env config maxDurationSeconds st).st.status) ∧
    (scanForSstv env config st maxDurationSeconds).st.status = Status.idle := by
  have hns : ¬(st.isScanning = true) := by
    rw [h]
    exact Bool.false_ne_true
  rw [scanForSstv, if_neg hns, scanFinally]
  dsimp only
  split
  · next hsc =>
      exact ⟨rfl, fun _ => rfl, fun hne => absurd hsc hne, rfl⟩
  · next hsc =>
      refine ⟨rfl, fun hx => absurd hx hsc, fun _ => rfl, ?_⟩
      cases hres : (scanTry env config maxDurationSeconds st).result with
      | none =>
          exact absurd ((scanTry_status env config maxDurationSeconds st).1 hres) hsc
      | some r =>
          exact (scanTry_status env config maxDurationSeconds st).2 r hres

/-- A scanner environment whose dwell never detects (peak always −80 dB). -/
def c7Env : ScanEnv :=
  ⟨true, none, fun _ => some (-80), fun _ => Except.ok "/recordings/test.wav",
    fun _ => 0, fun _ => Except.ok [], fun _ => true⟩

/-- Idle module state before a scan. -/
def c7St : St := ⟨0, Status.idle, false, false, 0, 0⟩

/-- Receiver configuration for the C7 witness. -/
def c7Cfg : ReceiverConfig :=
  ⟨⟨40, 0, 48000⟩, ⟨"/recordings", "/images", -35, false⟩⟩

/-- Witness for C7: a 1 s scan that times out leaves the running flag cleared
and status `idle`. -/
theorem claim_C7_witness :
    (scanForSstv c7Env c7Cfg c7St 1).st.isScanning = false ∧
    (scanForSstv c7Env c7Cfg c7St 1).st.status = Status.idle :=
  ⟨(claim_C7_finally_semantics c7Env c7Cfg 1 c7St rfl).1,
    (claim_C7_finally_semantics c7Env c7Cfg 1 c7St rfl).2.2.2⟩

theorem scanFinally_result (o : ScanOut) : (scanFinally o).result = o.result := by
  rw [scanFinally]
  dsimp only
  split
  · rfl
  · rfl

/-- C9: `scanForSstv` clears the cooperative stop flag as it starts, so a
`stopSstvScanner()` call made while no scan is in flight has no effect at
all on the next scan — the run is identical whether or not the stale flag
was set.  Only a stop that lands once the scan has begun (`stopTime` at or
before a poll instant) cancels it, making the scan return `null`. -/
theorem claim_C9_stale_stop_ignored (env : ScanEnv) (config : ReceiverConfig)
    (maxDurationSeconds : Nat) (st : St) (h : st.isScanning = false) :
    scanForSstv env config (stopSstvScanner st) maxDurationSeconds =
      scanForSstv env config st maxDurationSeconds ∧
    (∀ ts, env.stopTime = some ts → ts ≤ st.now →
      (scanForSstv env config st maxDurationSeconds).result = none) := by
  have hns : ¬(st.isScanning = true) := by
    rw [h]
    exact Bool.false_ne_true
  constructor
  · rw [scanForSstv, scanForSstv]
    dsimp only [stopSstvScanner]
    rw [if_neg hns, if_neg hns]
    rfl
  · intro ts hts hle
    rw [scanForSstv, if_neg hns, scanFinally_result, scanTry]
    dsimp only [SSTV_SCAN_FREQUENCIES]
    split
    · rw [scanLoop, dif_neg]
      intro hcon
      have hrs := hcon.1
      simp [readStop, hts] at hrs
      omega
    · rw [scanLoop, dif_neg]
      intro hcon
      have hrs := hcon.1
      simp [readStop, hts] at hrs
      omega

/-- Scanner environment for the C9 witness: a stop request at time 0 and a
quiet band. -/
def c9Env : ScanEnv :=
  ⟨true, some 0, fun _ => some (-80), fun _ => Except.ok "/recordings/test.wav",
    fun _ => 0, fun _ => Except.ok [], fun _ => true⟩

/-- Module state with a stale stop flag and no scan in flight. -/
def c9St : St := ⟨0, Status.idle, false, true, 0, 0⟩

/-- Receiver configuration for the C9 witness. -/
def c9Cfg : ReceiverConfig :=
  ⟨⟨40, 0, 48000⟩, ⟨"/recordings", "/images", -35, false⟩⟩

/-- Witness for C9: setting the flag again before the scan changes nothing,
and the time-0 stop request cancels the scan itself. -/
theorem claim_C9_witness :
    scanForSstv c9Env c9Cfg (stopSstvScanner c9St) 1 =
      scanForSstv c9Env c9Cfg c9St 1 ∧
    (scanForSstv c9Env c9Cfg c9St 1).result = none :=
  ⟨(claim_C9_stale_stop_ignored c9Env c9Cfg 1 c9St rfl).1,
    (claim_C9_stale_stop_ignored c9Env c9Cfg 1 c9St rfl).2 0 rfl (by decide)⟩

/-- C5: for every width, height and RGBA buffer (of bytes), `writePng`'s
output is exactly the PNG the specification describes: the 8-byte signature,
an IHDR chunk with the given width and height, bit depth 8, colour type 2
and compression/filter/interlace 0, one IDAT chunk holding the compressor's
output on rows of a 0 filter byte followed by `width` 3-byte RGB pixels, and
an IEND chunk — every chunk carrying a CRC-32 over `type ++ data` computed
with polynomial 0xEDB88320 (the reference bit-at-a-time CRC, which the
source's table-driven loop is proved to equal).  The DEFLATE level-6
compressor is zlib, external to the repository, abstracted as any
byte-valued function `deflate6`. -/
theorem claim_C5_writePng_layout (deflate6 : List Nat → List Nat)
    (pixels : List Nat) (width height : Nat)
    (hdef : ∀ b ∈ deflate6 (rawScanlines pixels width height), b < 256) :
    writePng deflate6 pixels width height =
      writePngSpec deflate6 pixels width height := by
  have hihdr : ∀ b ∈ ihdrData width height, b < 256 := by
    rw [ihdrData]
    exact append_bytes_lt
      (append_bytes_lt (be32_bytes_lt width) (be32_bytes_lt height)) (by decide)
  rw [writePng, writePngSpec]
  rw [chunkBytes_eq_chunkSpec ihdrType (ihdrData width height)
    (append_bytes_lt (by decide) hihdr)]
  rw [chunkBytes_eq_chunkSpec idatType
    (deflate6 (rawScanlines pixels width height))
    (append_bytes_lt (by decide) hdef)]
  rw [chunkBytes_eq_chunkSpec iendType [] (by decide)]
  rw [ihdrData, rawScanlines]

/-- Witness for C5: a 1×1 image through the identity compressor. -/
theorem claim_C5_witness :
    (∀ b ∈ id (rawScanlines [10, 20, 30, 40] 1 1), b < 256) ∧
    writePng id [10, 20, 30, 40] 1 1 = writePngSpec id [10, 20, 30, 40] 1 1 :=
  ⟨by decide, claim_C5_writePng_layout id [10, 20, 30, 40] 1 1 (by decide)⟩

/-- C10: `writePng` never reads the alpha component: two RGBA buffers of the
same dimensions agreeing on every byte whose index is not ≡ 3 (mod 4)
produce byte-identical PNG files, whatever the compressor does. -/
theorem claim_C10_alpha_independence (deflate6 : List Nat → List Nat)
    (p1 p2 : List Nat) (width height : Nat)
    (hagree : ∀ i, i % 4 ≠ 3 → p1.getD i 0 = p2.getD i 0) :
    writePng deflate6 p1 width height = writePng deflate6 p2 width height := by
  have hraw : rawScanlines p1 width height = rawScanlines p2 width height := by
    rw [rawScanlines, rawScanlines]
    congr 1
    funext y
    congr 1
    congr 1
    funext x
    rw [hagree ((y * width + x) * 4) (by omega),
      hagree ((y * width + x) * 4 + 1) (by omega),
      hagree ((y * width + x) * 4 + 2) (by omega)]
  rw [writePng, writePng, hraw]

/-- Witness for C10: two 1×1 buffers differing only in alpha give the same
PNG bytes. -/
theorem claim_C10_witness :
    writePng id [1, 2, 3, 4] 1 1 = writePng id [1, 2, 3, 9] 1 1 :=
  claim_C10_alpha_independence id [1, 2, 3, 4] [1, 2, 3, 9] 1 1 (by
    intro i hi
    match i with
    | 0 => rfl
    | 1 => rfl
    | 2 => rfl
    | 3 => exact absurd rfl hi
    | n + 4 =>
        rw [List.getD_eq_default _ _
            (by simp only [List.length_cons, List.length_nil]; omega),
          List.getD_eq_default _ _
            (by simp only [List.length_cons, List.length_nil]; omega)])
